import Mathlib

/-!
Shallow embedding of the train-platform-crawler core: the resilient Rail Data
API client (retry and error classification), the response normalizer, and the
Train Data Service orchestration (delay detection, station status).

Sources embedded:
  backend/core/exceptions.py      (exception taxonomy, handle_api_error)
  backend/clients/rail_data_client.py  (RailDataClient._make_request retry loop)
  backend/models/TrainService.py  (TrainService pydantic model)
  backend/services/train_service.py    (TrainDataService)

Modelling conventions: Python exceptions become Except values; exception
objects are abstracted to their class kind (messages are not modelled, the
spec speaks only of kinds); a raw JSON record is a typed structure whose
Option fields model absent keys; the null raw record is the none case of
Option RawService; network attempt outcomes are an oracle function from
attempt number to outcome, and sleeps are recorded in a trace.
-/

namespace TrainCrawler

/-- Python-level failures that can occur inside the normalizer body:
attribute access on None raises AttributeError, list indexing out of range
raises IndexError. -/
inductive PyErr
  | attributeError
  | indexError
  deriving DecidableEq

/-- Exception kinds from backend/core/exceptions.py. In the Python class
hierarchy, ExternalAPIError, APITimeoutError and APIRateLimitError are
sibling subclasses of APIClientError (so an APITimeoutError is NOT an
instance of ExternalAPIError); DataParsingError and ConfigurationError are
direct subclasses of the base exception. -/
inductive AppError
  | configurationError
  | externalAPIError
  | apiTimeoutError
  | apiRateLimitError
  | dataParsingError
  | otherError
  deriving DecidableEq

/-- Python isinstance(e, ExternalAPIError): true only for the
ExternalAPIError class itself, since APITimeoutError and APIRateLimitError
are siblings, not subclasses. -/
def isExternalAPIError : AppError → Bool
  | AppError.externalAPIError => true
  | _ => false

/-- Python isinstance(e, DataParsingError). -/
def isDataParsingError : AppError → Bool
  | AppError.dataParsingError => true
  | _ => false

/-- One entry of a raw destination/origin list: a mapping with an optional
locationName key. -/
structure RawLocation where
  locationName : Option String
  deriving DecidableEq

/-- A raw REST-shaped service record (Shape A): a mapping whose keys may be
absent, modelled with Option fields. -/
structure RawService where
  sta : Option String
  eta : Option String
  std : Option String
  etd : Option String
  platform : Option String
  operator : Option String
  destination : Option (List RawLocation)
  origin : Option (List RawLocation)
  serviceID : Option String
  deriving DecidableEq

/-- A raw board payload returned by the client: a mapping that may or may not
carry a trainServices key; each list entry may be the null record. -/
structure RawBoard where
  trainServices : Option (List (Option RawService))
  deriving DecidableEq

/-- backend/models/TrainService.py: the canonical ServiceRecord.
scheduled_time and expected_time are non-nullable strings; every other field
is Optional with default None. -/
structure TrainService where
  scheduled_time : String
  expected_time : String
  platform : Option String
  operator : Option String
  destination : Option String
  origin : Option String
  service_id : Option String
  status : Option String
  deriving DecidableEq

/-- Python `x or ""` on an optional string: None and the empty string are
falsy, so both map to ""; any other string is returned itself. -/
def pyOrEmpty : Option String → String
  | none => ""
  | some s => if s = "" then "" else s

/-- Python list indexing `l[i]`: raises IndexError when out of range. -/
def pyIndex (l : List RawLocation) (i : Nat) : Except PyErr RawLocation :=
  match l.get? i with
  | some x => Except.ok x
  | none => Except.error PyErr.indexError

/-- Lines 47-59 of train_service.py, destination/origin extraction:
`if service_data.get('destination'):` (truthy only when the key is present
with a non-empty list), then, guarded again by
`if destinations and len(destinations) > 0:`, the first element is indexed
and its locationName key read. -/
def extract_first_location (locs : Option (List RawLocation)) :
    Except PyErr (Option String) :=
  match locs with
  | none => Except.ok none
  | some destinations =>
    if destinations = [] then Except.ok none
    else if destinations ≠ [] ∧ 0 < destinations.length then do
      let d0 ← pyIndex destinations 0
      Except.ok d0.locationName
    else Except.ok none

/-- The try block of TrainDataService._parse_service_data (lines 33-73).
A None record fails at the first attribute access (`None.get` raises
AttributeError). Field names are chosen by is_arrival: sta/eta for arrivals,
std/etd for departures. status is the raw extracted expected time (before
the `or ""` defaulting applied to the expected_time field). -/
def parse_body (service_data : Option RawService) (is_arrival : Bool) :
    Except PyErr TrainService :=
  match service_data with
  | none => Except.error PyErr.attributeError
  | some d => do
    let scheduled_time := if is_arrival then d.sta else d.std
    let expected_time := if is_arrival then d.eta else d.etd
    let destination ← extract_first_location d.destination
    let origin ← extract_first_location d.origin
    Except.ok {
      scheduled_time := pyOrEmpty scheduled_time
      expected_time := pyOrEmpty expected_time
      platform := d.platform
      operator := d.operator
      destination := destination
      origin := origin
      service_id := d.serviceID
      status := expected_time }

/-- TrainDataService._parse_service_data: the surrounding
`except Exception ... raise DataParsingError` converts every failure of the
body into a DataParsingError. -/
def parse_service_data (service_data : Option RawService) (is_arrival : Bool) :
    Except AppError TrainService :=
  match parse_body service_data is_arrival with
  | Except.ok t => Except.ok t
  | Except.error _ => Except.error AppError.dataParsingError

/-- The per-record loop of get_arrivals/get_departures (lines 104-112 and
149-157): each raw entry is parsed; a DataParsingError is logged and the
record skipped; any other exception escapes the loop. A successfully parsed
record is always appended (a pydantic model instance is always truthy). -/
def parse_services_loop (raws : List (Option RawService)) (is_arrival : Bool) :
    Except AppError (List TrainService) :=
  List.foldlM
    (fun services sd =>
      match parse_service_data sd is_arrival with
      | Except.ok service => Except.ok (services ++ [service])
      | Except.error err =>
        if isDataParsingError err then Except.ok services
        else Except.error err)
    [] raws

/-- TrainDataService.get_arrivals (lines 79-122), with the client call
abstracted by its result. The try block fetches the payload and runs the
parse loop; `except ExternalAPIError: raise` re-raises exactly that class;
`except Exception` wraps everything else in a NEW ExternalAPIError. The
trainServices key defaults to the empty list when absent
(`data.get('trainServices', [])`). -/
def get_arrivals (client_result : Except AppError RawBoard) :
    Except AppError (List TrainService) :=
  let body :=
    match client_result with
    | Except.error err => Except.error err
    | Except.ok data => parse_services_loop (data.trainServices.getD []) true
  match body with
  | Except.ok services => Except.ok services
  | Except.error err =>
    if isExternalAPIError err then Except.error err
    else Except.error AppError.externalAPIError

/-- TrainDataService.get_departures (lines 124-167): symmetric to
get_arrivals with is_arrival=false. -/
def get_departures (client_result : Except AppError RawBoard) :
    Except AppError (List TrainService) :=
  let body :=
    match client_result with
    | Except.error err => Except.error err
    | Except.ok data => parse_services_loop (data.trainServices.getD []) false
  match body with
  | Except.ok services => Except.ok services
  | Except.error err =>
    if isExternalAPIError err then Except.error err
    else Except.error AppError.externalAPIError

/-- TrainDataService.check_service_delays (lines 187-216). The loop mirrors
the nested ifs of the Python body: both time strings truthy (non-empty),
expected differs from scheduled, then either expected is outside
the literal list (appended) or expected is exactly the literal
(appended via the elif branch). threshold_minutes is accepted but never
used. The try/except inside the loop is not modelled: no statement of the
body can raise. -/
def check_service_delays (services : List TrainService)
    (threshold_minutes : Nat) : List TrainService :=
  List.foldl
    (fun delayed_services service =>
      if service.scheduled_time ≠ "" ∧ service.expected_time ≠ "" then
        if service.expected_time ≠ service.scheduled_time then
          if service.expected_time ∉ (["On time", "Cancelled", "Delayed"] : List String) then
            delayed_services ++ [service]
          else if service.expected_time = "Delayed" then
            delayed_services ++ [service]
          else delayed_services
        else delayed_services
      else delayed_services)
    [] services

/-- The value of str(e) for an application exception, abstracted to the class
name since exception messages are not modelled. -/
def err_str : AppError → String
  | AppError.configurationError => "ConfigurationError"
  | AppError.externalAPIError => "ExternalAPIError"
  | AppError.apiTimeoutError => "APITimeoutError"
  | AppError.apiRateLimitError => "APIRateLimitError"
  | AppError.dataParsingError => "DataParsingError"
  | AppError.otherError => "Exception"

/-- The dictionary returned by get_station_status: the count keys are present
only on the success path, the error key only on the failure path. -/
structure StationStatus where
  crs_code : String
  total_arrivals : Option Nat
  total_departures : Option Nat
  delayed_arrivals : Option Nat
  delayed_departures : Option Nat
  status : String
  error : Option String
  deriving DecidableEq

/-- TrainDataService.get_station_status (lines 218-250), with the two client
calls abstracted by their results. The try block fetches arrivals and
departures (each may raise), counts delayed services with the default
threshold 5, and reports operational iff the total delayed count is zero;
`except Exception` turns ANY failure into a status-error dictionary instead
of raising, so the function is total. -/
def get_station_status (crs_code : String)
    (arrivals_result departures_result : Except AppError RawBoard) :
    StationStatus :=
  match get_arrivals arrivals_result with
  | Except.error err =>
    { crs_code := crs_code
      total_arrivals := none
      total_departures := none
      delayed_arrivals := none
      delayed_departures := none
      status := "error"
      error := some (err_str err) }
  | Except.ok arrivals =>
    match get_departures departures_result with
    | Except.error err =>
      { crs_code := crs_code
        total_arrivals := none
        total_departures := none
        delayed_arrivals := none
        delayed_departures := none
        status := "error"
        error := some (err_str err) }
    | Except.ok departures =>
      let delayed_arrivals := check_service_delays arrivals 5
      let delayed_departures := check_service_delays departures 5
      { crs_code := crs_code
        total_arrivals := some arrivals.length
        total_departures := some departures.length
        delayed_arrivals := some delayed_arrivals.length
        delayed_departures := some delayed_departures.length
        status :=
          if delayed_arrivals.length + delayed_departures.length = 0
          then "operational" else "delays"
        error := none }

/-- The outcome of one network attempt by RailDataClient._make_request: a
response with an HTTP status and a parsed JSON body, or one of the three
requests-library exception classes caught by the method. -/
inductive AttemptOutcome
  | response (status : Nat) (body : RawBoard)
  | timeout
  | connectionError
  | requestError

/-- core/exceptions.py handle_api_error (lines 162-201): classify a non-200
status into an exception kind and raise it. 429 is a rate limit, 504 a
timeout, any other 4xx a client-side ExternalAPIError, any 5xx a server-side
ExternalAPIError, anything else an unexpected ExternalAPIError. -/
def handle_api_error (response_status : Nat) : AppError :=
  if response_status = 429 then AppError.apiRateLimitError
  else if response_status = 504 then AppError.apiTimeoutError
  else if 400 ≤ response_status ∧ response_status < 500 then
    AppError.externalAPIError
  else if 500 ≤ response_status ∧ response_status < 600 then
    AppError.externalAPIError
  else AppError.externalAPIError

/-- The observable trace of one _make_request call: its result, how many
network attempts were performed, and the duration of every time.sleep in
order. -/
structure RequestTrace where
  result : Except AppError RawBoard
  attempts : Nat
  sleeps : List Nat

/-- RailDataClient._make_request (lines 65-139), with the network abstracted
by an oracle from attempt number to outcome. A response returns its body on
status 200 and otherwise raises via handle_api_error (no retry). A Timeout
or ConnectionError retries while retries < max_retries, sleeping
retry_delay * (retries + 1) first (recursive call with retries + 1); once
retries are exhausted, Timeout raises APITimeoutError and ConnectionError
raises ExternalAPIError. Any other RequestException raises ExternalAPIError
at once. -/
def make_request (max_retries retry_delay : Nat)
    (attempt : Nat → AttemptOutcome) (retries : Nat) : RequestTrace :=
  match attempt retries with
  | AttemptOutcome.response status body =>
    if status = 200 then
      { result := Except.ok body, attempts := 1, sleeps := [] }
    else
      { result := Except.error (handle_api_error status)
        attempts := 1, sleeps := [] }
  | AttemptOutcome.timeout =>
    if retries < max_retries then
      let rest := make_request max_retries retry_delay attempt (retries + 1)
      { result := rest.result
        attempts := rest.attempts + 1
        sleeps := retry_delay * (retries + 1) :: rest.sleeps }
    else
      { result := Except.error AppError.apiTimeoutError
        attempts := 1, sleeps := [] }
  | AttemptOutcome.connectionError =>
    if retries < max_retries then
      let rest := make_request max_retries retry_delay attempt (retries + 1)
      { result := rest.result
        attempts := rest.attempts + 1
        sleeps := retry_delay * (retries + 1) :: rest.sleeps }
    else
      { result := Except.error AppError.externalAPIError
        attempts := 1, sleeps := [] }
  | AttemptOutcome.requestError =>
    { result := Except.error AppError.externalAPIError
      attempts := 1, sleeps := [] }
termination_by max_retries + 1 - retries

/-- The first locationName of an optional location list, the value the
guarded extraction computes: none when the list is absent or empty. -/
def first_loc_name : Option (List RawLocation) → Option String
  | none => none
  | some [] => none
  | some (d :: _) => d.locationName

/-- The record produced by the normalizer body on a non-null raw record,
written out field by field. -/
def parsed_record (d : RawService) (is_arrival : Bool) : TrainService :=
  { scheduled_time := pyOrEmpty (if is_arrival then d.sta else d.std)
    expected_time := pyOrEmpty (if is_arrival then d.eta else d.etd)
    platform := d.platform
    operator := d.operator
    destination := first_loc_name d.destination
    origin := first_loc_name d.origin
    service_id := d.serviceID
    status := if is_arrival then d.eta else d.etd }

/-- The delay predicate actually implemented by check_service_delays once its
nested branches are flattened: both times non-empty, expected differs from
scheduled, and expected is neither literal "On time" nor "Cancelled" (the
"Delayed" literal passes through the elif branch, still under the guards). -/
def delayed_spec (s : TrainService) : Bool :=
  decide (s.scheduled_time ≠ "" ∧ s.expected_time ≠ "" ∧
    s.expected_time ≠ s.scheduled_time ∧
    s.expected_time ≠ "On time" ∧ s.expected_time ≠ "Cancelled")

/-- Modelled from the spec: the delay predicate exactly as the claim words
it, for comparison with the code. Its second disjunct flags every record
whose expected_time is the literal "Delayed", with no guard on
scheduled_time or on expected differing from scheduled. -/
def claimed_delayed (s : TrainService) : Prop :=
  (s.expected_time ≠ "" ∧ s.scheduled_time ≠ "" ∧
    s.expected_time ≠ s.scheduled_time ∧
    s.expected_time ≠ "On time" ∧ s.expected_time ≠ "Cancelled") ∨
  s.expected_time = "Delayed"

/-- A raw departure record whose etd key is absent. -/
def rawNoEtd : RawService :=
  { sta := none, eta := none, std := some "09:00", etd := none,
    platform := none, operator := none, destination := none, origin := none,
    serviceID := none }

/-- The record the normalizer returns on rawNoEtd in departure mode. -/
def c2_output : TrainService :=
  { scheduled_time := "09:00", expected_time := "", platform := none,
    operator := none, destination := none, origin := none,
    service_id := none, status := none }

/-- A complete raw departure record, as in the repository tests. -/
def rawFull : RawService :=
  { sta := none, eta := none, std := some "09:15", etd := some "09:20",
    platform := some "1", operator := some "Great Western Railway",
    destination := some [{ locationName := some "Reading" }],
    origin := some [{ locationName := some "London Paddington" }],
    serviceID := some "ABC123" }

/-- A raw record whose destination list is present but empty and whose
origin key is absent. -/
def rawEmptyDest : RawService :=
  { sta := some "10:30", eta := some "On time", std := none, etd := none,
    platform := none, operator := none, destination := some [],
    origin := none, serviceID := none }

/-- Delay-check fixture: scheduled 09:15, expected 09:20. -/
def svc1 : TrainService :=
  { scheduled_time := "09:15", expected_time := "09:20", platform := none,
    operator := none, destination := none, origin := none,
    service_id := none, status := some "09:20" }

/-- Delay-check fixture: scheduled 09:30, expected On time. -/
def svc2 : TrainService :=
  { scheduled_time := "09:30", expected_time := "On time", platform := none,
    operator := none, destination := none, origin := none,
    service_id := none, status := some "On time" }

/-- Delay-check fixture: scheduled 09:45, expected Delayed. -/
def svc3 : TrainService :=
  { scheduled_time := "09:45", expected_time := "Delayed", platform := none,
    operator := none, destination := none, origin := none,
    service_id := none, status := some "Delayed" }

/-- A record with the literal "Delayed" as expected_time but an empty
scheduled_time, so the outer truthiness guard fails. -/
def delayedNoSched : TrainService :=
  { scheduled_time := "", expected_time := "Delayed", platform := none,
    operator := none, destination := none, origin := none,
    service_id := none, status := some "Delayed" }

/-- The CRS code used by the station-status examples. -/
def pad_crs : String := "PAD"

/-- The record the normalizer returns on rawFull in arrival mode: the sta
and eta keys are absent, so both times default to the empty string and
status is null. -/
def c7_arr_output : TrainService :=
  { scheduled_time := "", expected_time := "", platform := some "1",
    operator := some "Great Western Railway", destination := some "Reading",
    origin := some "London Paddington", service_id := some "ABC123",
    status := none }

/-- The record the normalizer returns on rawFull in departure mode. -/
def c7_dep_output : TrainService :=
  { scheduled_time := "09:15", expected_time := "09:20", platform := some "1",
    operator := some "Great Western Railway", destination := some "Reading",
    origin := some "London Paddington", service_id := some "ABC123",
    status := some "09:20" }

/-- The record the normalizer returns on rawFull in departure mode, for the
field-selection example. -/
def c8_output : TrainService :=
  { scheduled_time := "09:15", expected_time := "09:20", platform := some "1",
    operator := some "Great Western Railway", destination := some "Reading",
    origin := some "London Paddington", service_id := some "ABC123",
    status := some "09:20" }

/-- The record the normalizer returns on rawEmptyDest in arrival mode. -/
def c9_output : TrainService :=
  { scheduled_time := "10:30", expected_time := "On time", platform := none,
    operator := none, destination := none, origin := none,
    service_id := none, status := some "On time" }

/-! Helper lemmas shared by the claim theorems. -/

/-- The guarded destination/origin extraction always succeeds and computes
the first locationName when the list is present and non-empty, none
otherwise. -/
theorem extract_first_location_eq (locs : Option (List RawLocation)) :
    extract_first_location locs = Except.ok (first_loc_name locs) := by
  rcases locs with _ | (_ | ⟨d, l⟩)
  · rfl
  · rfl
  · show extract_first_location (some (d :: l)) = Except.ok d.locationName
    simp [extract_first_location, pyIndex]
    rfl

/-- On a non-null raw record the normalizer body always succeeds, returning
the record written out by parsed_record. -/
theorem parse_body_some_eq (d : RawService) (b : Bool) :
    parse_body (some d) b = Except.ok (parsed_record d b) := by
  simp [parse_body, extract_first_location_eq, parsed_record]
  rfl

/-- parse_service_data on a non-null raw record succeeds with the record
written out by parsed_record. -/
theorem parse_service_data_some_eq (d : RawService) (b : Bool) :
    parse_service_data (some d) b = Except.ok (parsed_record d b) := by
  simp [parse_service_data, parse_body_some_eq]

/-- One iteration of the check_service_delays loop appends the service
exactly when the flattened delay predicate holds. -/
theorem check_delays_step (acc : List TrainService) (s : TrainService) :
    (if s.scheduled_time ≠ "" ∧ s.expected_time ≠ "" then
        if s.expected_time ≠ s.scheduled_time then
          if s.expected_time ∉ (["On time", "Cancelled", "Delayed"] : List String) then
            acc ++ [s]
          else if s.expected_time = "Delayed" then acc ++ [s]
          else acc
        else acc
      else acc) = acc ++ (if delayed_spec s then [s] else []) := by
  by_cases h1 : s.scheduled_time = "" <;>
    by_cases h2 : s.expected_time = "" <;>
    by_cases h3 : s.expected_time = s.scheduled_time <;>
    by_cases h4 : s.expected_time = "On time" <;>
    by_cases h5 : s.expected_time = "Cancelled" <;>
    by_cases h6 : s.expected_time = "Delayed" <;>
    simp [delayed_spec, h1, h2, h3, h4, h5, h6] <;>
    simp_all

/-- The check_service_delays loop with an arbitrary accumulator filters by
the flattened delay predicate. -/
theorem check_delays_go (services acc : List TrainService) :
    List.foldl
      (fun delayed_services service =>
        if service.scheduled_time ≠ "" ∧ service.expected_time ≠ "" then
          if service.expected_time ≠ service.scheduled_time then
            if service.expected_time ∉ (["On time", "Cancelled", "Delayed"] : List String) then
              delayed_services ++ [service]
            else if service.expected_time = "Delayed" then
              delayed_services ++ [service]
            else delayed_services
          else delayed_services
        else delayed_services)
      acc services = acc ++ services.filter delayed_spec := by
  induction services generalizing acc with
  | nil => simp
  | cons s rest ih =>
    rw [List.foldl_cons, check_delays_step, ih, List.filter_cons]
    by_cases hs : delayed_spec s <;> simp [hs]

/-- check_service_delays is the filter by the flattened delay predicate, for
every threshold value. -/
theorem check_service_delays_eq_filter (services : List TrainService) (t : Nat) :
    check_service_delays services t = services.filter delayed_spec := by
  have h := check_delays_go services []
  simpa [check_service_delays] using h

/-- When every attempt times out, the retry recursion starting at any
retries value bounded by max_retries performs one attempt per remaining
retry budget plus the initial one, sleeps the linearly growing delays, and
ends in APITimeoutError. -/
theorem make_request_timeout_aux (rd : Nat) (attempt : Nat → AttemptOutcome)
    (h : ∀ n, attempt n = AttemptOutcome.timeout) :
    ∀ k retries mr, mr = retries + k →
      make_request mr rd attempt retries =
        { result := Except.error AppError.apiTimeoutError
          attempts := k + 1
          sleeps := (List.range' (retries + 1) k).map (fun j => rd * j) } := by
  intro k
  induction k with
  | zero =>
    intro retries mr hmr
    subst hmr
    rw [make_request]
    simp [h]
  | succ k ih =>
    intro retries mr hmr
    subst hmr
    rw [make_request]
    have hlt : retries < retries + (k + 1) := by omega
    have hrest := ih (retries + 1) (retries + (k + 1)) (by omega)
    simp [h, hlt, hrest, List.range'_succ]

/-! Claim theorems. -/

/-- C1 counterexample: the Train Data Service does NOT re-raise every
client-level failure unchanged. An APITimeoutError (and likewise an
APIRateLimitError) from the client is not caught by the
`except ExternalAPIError: raise` clause, because it is a sibling class of
ExternalAPIError, so it falls into `except Exception` and is re-raised
wrapped as an ExternalAPIError: the exception kind surfaced by get_arrivals
and get_departures differs from the kind raised by the client. -/
theorem c1_timeout_wrapped_not_unchanged :
    get_arrivals (Except.error AppError.apiTimeoutError) =
      Except.error AppError.externalAPIError ∧
    get_departures (Except.error AppError.apiRateLimitError) =
      Except.error AppError.externalAPIError ∧
    AppError.externalAPIError ≠ AppError.apiTimeoutError ∧
    AppError.externalAPIError ≠ AppError.apiRateLimitError :=
  ⟨rfl, rfl, by decide, by decide⟩

/-- C1 amended: for every failure raised by the client during get_arrivals
or get_departures, the Train Data Service re-raises an ExternalAPIError
unchanged, while every other kind, APITimeoutError and APIRateLimitError
included, is re-raised wrapped as an ExternalAPIError, so the surfaced kind
is always ExternalAPIError. -/
theorem c1_error_propagation_policy (err : AppError) :
    get_arrivals (Except.error err) =
      Except.error
        (if isExternalAPIError err then err else AppError.externalAPIError) ∧
    get_departures (Except.error err) =
      Except.error
        (if isExternalAPIError err then err else AppError.externalAPIError) := by
  cases err <;> exact ⟨rfl, rfl⟩

/-- C2 counterexample: when the upstream expected-time value is absent, the
normalizer sets expected_time to the empty string but status to the raw
None, so the status field does NOT equal the expected_time field in that
case (None differs from the empty string). -/
theorem c2_absent_expected_status_null :
    parse_service_data (some rawNoEtd) false = Except.ok c2_output ∧
    c2_output.expected_time = "" ∧
    c2_output.status ≠ some c2_output.expected_time :=
  ⟨rfl, rfl, by decide⟩

/-- C2 amended: for every raw record accepted by the normalizer, in both
modes, status equals the raw extracted expected-time value: whenever that
value is present (the empty string included) status equals the expected_time
field, but when it is absent status is null while expected_time is the empty
string. -/
theorem c2_status_policy (raw : RawService) (b : Bool) (t : TrainService)
    (h : parse_service_data (some raw) b = Except.ok t) :
    t.status = (if b then raw.eta else raw.etd) ∧
    (∀ s, (if b then raw.eta else raw.etd) = some s →
      t.status = some t.expected_time) ∧
    ((if b then raw.eta else raw.etd) = none →
      t.status = none ∧ t.expected_time = "") := by
  rw [parse_service_data_some_eq] at h
  injection h with ht
  subst ht
  refine ⟨rfl, ?_, ?_⟩
  · intro s hs
    by_cases hse : s = "" <;> simp [parsed_record, hs, pyOrEmpty, hse]
  · intro hn
    simp [parsed_record, hn, pyOrEmpty]

/-- C2 witness: the amended theorem applied to the concrete departure record
with no etd key. -/
theorem c2_status_policy_witness :
    parse_service_data (some rawNoEtd) false = Except.ok c2_output ∧
    c2_output.status = none ∧ c2_output.expected_time = "" :=
  ⟨rfl, (c2_status_policy rawNoEtd false c2_output rfl).2.2 rfl⟩

/-- C3 counterexample: a record whose expected_time is the literal "Delayed"
but whose scheduled_time is empty satisfies the delay predicate exactly as
the claim words it (its separate "Delayed" branch is unguarded), yet
check_service_delays does not return it: in the code the "Delayed" branch
sits inside the non-empty and differing-times guards. -/
theorem c3_unguarded_delayed_literal :
    claimed_delayed delayedNoSched ∧
    check_service_delays [delayedNoSched] 5 = [] :=
  ⟨Or.inr rfl, rfl⟩

/-- C3 amended: check_service_delays returns exactly the records with
non-empty expected_time and scheduled_time whose expected_time differs from
scheduled_time and is neither the literal "On time" nor "Cancelled"; the
separate "Delayed" branch applies only under those same guards (so it adds
nothing beyond them). On the three-record example the result is exactly the
1st and 3rd records. -/
theorem c3_delay_filter :
    (∀ (services : List TrainService) (t : Nat),
      check_service_delays services t = services.filter delayed_spec) ∧
    check_service_delays [svc1, svc2, svc3] 5 = [svc1, svc3] :=
  ⟨check_service_delays_eq_filter, rfl⟩

/-- C4: get_station_status is total (it returns a StationStatus, never
propagating an error). Its status is always one of operational, delays,
error; when both fetches succeed it is operational exactly when the delayed
arrivals plus delayed departures count is zero and delays otherwise; when
either fetch fails, for any error kind, the status is error and an error
description is present. -/
theorem c4_station_status (crs_code : String)
    (arrB depB : Except AppError RawBoard) :
    ((get_station_status crs_code arrB depB).status = "operational" ∨
     (get_station_status crs_code arrB depB).status = "delays" ∨
     (get_station_status crs_code arrB depB).status = "error") ∧
    (∀ arrivals departures, get_arrivals arrB = Except.ok arrivals →
      get_departures depB = Except.ok departures →
      (get_station_status crs_code arrB depB).status =
        (if (check_service_delays arrivals 5).length +
            (check_service_delays departures 5).length = 0
         then "operational" else "delays")) ∧
    (∀ err, get_arrivals arrB = Except.error err →
      (get_station_status crs_code arrB depB).status = "error" ∧
      (get_station_status crs_code arrB depB).error = some (err_str err)) ∧
    (∀ arrivals err, get_arrivals arrB = Except.ok arrivals →
      get_departures depB = Except.error err →
      (get_station_status crs_code arrB depB).status = "error" ∧
      (get_station_status crs_code arrB depB).error = some (err_str err)) := by
  cases ha : get_arrivals arrB with
  | error e =>
    refine ⟨Or.inr (Or.inr ?_), ?_, ?_, ?_⟩ <;>
      simp [get_station_status, ha]
  | ok arrivals =>
    cases hd : get_departures depB with
    | error e =>
      refine ⟨Or.inr (Or.inr ?_), ?_, ?_, ?_⟩ <;>
        simp [get_station_status, ha, hd]
    | ok departures =>
      refine ⟨?_, ?_, ?_, ?_⟩
      · by_cases hz :
          (check_service_delays arrivals 5).length +
            (check_service_delays departures 5).length = 0
        · exact Or.inl (by simp [get_station_status, ha, hd, hz])
        · exact Or.inr (Or.inl (by simp [get_station_status, ha, hd, hz]))
      · intro a d hha hhd
        injection hha with hha
        injection hhd with hhd
        subst hha
        subst hhd
        by_cases hz :
          (check_service_delays arrivals 5).length +
            (check_service_delays departures 5).length = 0 <;>
          simp [get_station_status, ha, hd, hz]
      · intro err herr
        exact absurd herr (by simp)
      · intro a err hha herr
        exact absurd herr (by simp)

/-- C4 witness: with a failing arrivals fetch the status is error with a
description; with two successful empty boards the status is operational. -/
theorem c4_station_status_witness :
    ((get_station_status pad_crs (Except.error AppError.externalAPIError)
        (Except.ok { trainServices := none })).status = "error" ∧
     (get_station_status pad_crs (Except.error AppError.externalAPIError)
        (Except.ok { trainServices := none })).error =
       some (err_str AppError.externalAPIError)) ∧
    (get_station_status pad_crs (Except.ok { trainServices := none })
        (Except.ok { trainServices := none })).status = "operational" := by
  constructor
  · exact (c4_station_status pad_crs (Except.error AppError.externalAPIError)
      (Except.ok { trainServices := none })).2.2.1 AppError.externalAPIError rfl
  · have h := (c4_station_status pad_crs (Except.ok { trainServices := none })
      (Except.ok { trainServices := none })).2.1 [] [] rfl rfl
    simpa using h

/-- C5: when every attempt times out, _make_request performs the initial
attempt plus exactly max_retries retries (max_retries + 1 attempts in all,
none after that), sleeping retry_delay * attempt_number before each retry
(the linearly increasing backoff sequence retry_delay * 1, ...,
retry_delay * max_retries), and then raises APITimeoutError. -/
theorem c5_timeout_retries (max_retries retry_delay : Nat)
    (attempt : Nat → AttemptOutcome)
    (h : ∀ n, attempt n = AttemptOutcome.timeout) :
    make_request max_retries retry_delay attempt 0 =
      { result := Except.error AppError.apiTimeoutError
        attempts := max_retries + 1
        sleeps := (List.range' 1 max_retries).map
          (fun j => retry_delay * j) } :=
  make_request_timeout_aux retry_delay attempt h max_retries 0 max_retries
    (by omega)

/-- C5 witness: with the default max_retries of 3 and retry_delay of 1 there
are 4 attempts, the sleeps are 1, 2, 3 seconds, and APITimeoutError is
raised. -/
theorem c5_timeout_retries_witness :
    make_request 3 1 (fun _ => AttemptOutcome.timeout) 0 =
      { result := Except.error AppError.apiTimeoutError
        attempts := 4
        sleeps := [1, 2, 3] } := by
  rw [c5_timeout_retries 3 1 (fun _ => AttemptOutcome.timeout) (fun n => rfl)]
  rfl

/-- C6: a first attempt answered with any non-200 HTTP status raises the
error classified by handle_api_error after exactly one attempt, with no
retry and no sleep; in particular a 429 response raises APIRateLimitError
immediately. -/
theorem c6_rate_limit_no_retry (max_retries retry_delay : Nat)
    (attempt : Nat → AttemptOutcome) (status : Nat) (body : RawBoard)
    (h0 : attempt 0 = AttemptOutcome.response status body)
    (hne : status ≠ 200) :
    make_request max_retries retry_delay attempt 0 =
      { result := Except.error (handle_api_error status)
        attempts := 1
        sleeps := [] } ∧
    (status = 429 →
      make_request max_retries retry_delay attempt 0 =
        { result := Except.error AppError.apiRateLimitError
          attempts := 1
          sleeps := [] }) := by
  have hmain : make_request max_retries retry_delay attempt 0 =
      { result := Except.error (handle_api_error status)
        attempts := 1, sleeps := [] } := by
    rw [make_request]
    simp [h0, hne]
  refine ⟨hmain, fun h429 => ?_⟩
  subst h429
  rw [hmain]
  rfl

/-- C6 witness: a concrete 429 response raises APIRateLimitError on the
first attempt with zero retries. -/
theorem c6_rate_limit_no_retry_witness :
    make_request 3 1
        (fun _ => AttemptOutcome.response 429 { trainServices := none }) 0 =
      { result := Except.error AppError.apiRateLimitError
        attempts := 1
        sleeps := [] } :=
  (c6_rate_limit_no_retry 3 1
    (fun _ => AttemptOutcome.response 429 { trainServices := none })
    429 { trainServices := none } rfl (by decide)).2 rfl

/-- C7: normalizing the null raw record raises DataParsingError in both
modes, and a batch holding one null record together with one valid record
yields exactly the one ServiceRecord parsed from the valid record, in
get_arrivals and in get_departures alike: the per-record failure never
aborts the batch. -/
theorem c7_null_record_skipped (raw : RawService) (ta td : TrainService)
    (ha : parse_service_data (some raw) true = Except.ok ta)
    (hd : parse_service_data (some raw) false = Except.ok td) :
    (∀ b, parse_service_data none b = Except.error AppError.dataParsingError) ∧
    get_arrivals (Except.ok { trainServices := some [none, some raw] }) =
      Except.ok [ta] ∧
    get_departures (Except.ok { trainServices := some [none, some raw] }) =
      Except.ok [td] := by
  have hna : parse_service_data none true =
      Except.error AppError.dataParsingError := rfl
  have hnd : parse_service_data none false =
      Except.error AppError.dataParsingError := rfl
  refine ⟨fun b => rfl, ?_, ?_⟩
  · simp [get_arrivals, parse_services_loop, List.foldlM, hna, ha,
      isDataParsingError]
    rfl
  · simp [get_departures, parse_services_loop, List.foldlM, hnd, hd,
      isDataParsingError]
    rfl

/-- C7 witness: the theorem applied to the complete raw record from the
repository tests. -/
theorem c7_null_record_skipped_witness :
    parse_service_data none true = Except.error AppError.dataParsingError ∧
    get_arrivals (Except.ok { trainServices := some [none, some rawFull] }) =
      Except.ok [c7_arr_output] ∧
    get_departures (Except.ok { trainServices := some [none, some rawFull] }) =
      Except.ok [c7_dep_output] :=
  ⟨(c7_null_record_skipped rawFull c7_arr_output c7_dep_output rfl rfl).1 true,
   (c7_null_record_skipped rawFull c7_arr_output c7_dep_output rfl rfl).2.1,
   (c7_null_record_skipped rawFull c7_arr_output c7_dep_output rfl rfl).2.2⟩

/-- C8: field selection is driven purely by is_arrival. For a departure
record with non-empty std and etd the result has scheduled_time equal to
std, expected_time equal to etd and status equal to etd; the sta and eta
keys are ignored in departure mode, and symmetrically the std and etd keys
are ignored in arrival mode. -/
theorem c8_field_selection (raw : RawService) (sd ed : String) (t : TrainService)
    (hstd : raw.std = some sd) (hetd : raw.etd = some ed)
    (hsd : sd ≠ "") (hed : ed ≠ "")
    (ht : parse_service_data (some raw) false = Except.ok t) :
    t.scheduled_time = sd ∧ t.expected_time = ed ∧ t.status = some ed ∧
    (∀ a e, parse_service_data (some { raw with sta := a, eta := e }) false =
      parse_service_data (some raw) false) ∧
    (∀ (r : RawService) (a e : Option String),
      parse_service_data (some { r with std := a, etd := e }) true =
      parse_service_data (some r) true) := by
  rw [parse_service_data_some_eq] at ht
  injection ht with ht
  subst ht
  refine ⟨?_, ?_, ?_, fun a e => rfl, fun r a e => rfl⟩
  · simp [parsed_record, hstd, pyOrEmpty, hsd]
  · simp [parsed_record, hetd, pyOrEmpty, hed]
  · simp [parsed_record, hetd]

/-- C8 witness: the theorem applied to the complete raw departure record
with std 09:15 and etd 09:20. -/
theorem c8_field_selection_witness :
    parse_service_data (some rawFull) false = Except.ok c8_output ∧
    c8_output.scheduled_time = "09:15" ∧
    c8_output.expected_time = "09:20" ∧
    c8_output.status = some "09:20" :=
  ⟨rfl,
   (c8_field_selection rawFull "09:15" "09:20" c8_output rfl rfl
     (by decide) (by decide) rfl).1,
   (c8_field_selection rawFull "09:15" "09:20" c8_output rfl rfl
     (by decide) (by decide) rfl).2.1,
   (c8_field_selection rawFull "09:15" "09:20" c8_output rfl rfl
     (by decide) (by decide) rfl).2.2.1⟩

/-- C9: the guarded first-element extraction never reaches the IndexError
branch (it succeeds on every input), normalization of any non-null record
never raises, and when the destination (or origin) list is absent or empty
the corresponding field of the result is null. -/
theorem c9_empty_destination_safe (raw : RawService) (b : Bool) :
    (∀ locs, (extract_first_location locs).isOk = true) ∧
    (parse_service_data (some raw) b).isOk = true ∧
    (raw.destination = none ∨ raw.destination = some [] →
      ∀ t, parse_service_data (some raw) b = Except.ok t →
        t.destination = none) ∧
    (raw.origin = none ∨ raw.origin = some [] →
      ∀ t, parse_service_data (some raw) b = Except.ok t →
        t.origin = none) := by
  refine ⟨?_, ?_, ?_, ?_⟩
  · intro locs
    rw [extract_first_location_eq]
    rfl
  · rw [parse_service_data_some_eq]
    rfl
  · intro hdst t ht
    rw [parse_service_data_some_eq] at ht
    injection ht with ht
    subst ht
    rcases hdst with h | h <;> simp [parsed_record, first_loc_name, h]
  · intro hor t ht
    rw [parse_service_data_some_eq] at ht
    injection ht with ht
    subst ht
    rcases hor with h | h <;> simp [parsed_record, first_loc_name, h]

/-- C9 witness: the theorem applied to the record with an empty destination
list and an absent origin key. -/
theorem c9_empty_destination_safe_witness :
    (parse_service_data (some rawEmptyDest) true).isOk = true ∧
    c9_output.destination = none ∧ c9_output.origin = none :=
  ⟨(c9_empty_destination_safe rawEmptyDest true).2.1,
   (c9_empty_destination_safe rawEmptyDest true).2.2.1 (Or.inr rfl)
     c9_output rfl,
   (c9_empty_destination_safe rawEmptyDest true).2.2.2 (Or.inl rfl)
     c9_output rfl⟩

/-- C10: a client payload that is a mapping without the trainServices key
yields the empty list from get_arrivals and get_departures, not an error. -/
theorem c10_missing_train_services_key :
    get_arrivals (Except.ok { trainServices := none }) = Except.ok [] ∧
    get_departures (Except.ok { trainServices := none }) = Except.ok [] :=
  ⟨rfl, rfl⟩

end TrainCrawler
